import Mathlib

/-!
Shallow embedding of the crate-store interface (`src/librustc/middle/cstore.rs`)
and of the MIR statistics collector (`src/librustc_passes/mir_stats.rs`).

Types defined outside the two source files (identifiers, spans, opaque
compiler data) are embedded as plain aliases; the functions proved about
below are translated from the source line by line.
-/

/-- `CrateNum`: dense small integer identifying a loaded crate (from
`hir::def_id`, outside `src/`; opaque here). -/
abbrev CrateNum := Nat

/-- `DefIndex`: index of a definition inside one crate (opaque). -/
abbrev DefIndex := Nat

/-- `DefId`: pair of a crate number and a definition index. -/
structure DefId where
  krate : CrateNum
  index : DefIndex
deriving DecidableEq, Repr

/-- `ast::NodeId` (opaque). -/
abbrev NodeId := Nat

/-- `syntax::symbol::Symbol`: an interned string (modelled as a string). -/
abbrev SymbolStr := String

/-- `Svh`: the crate hash (opaque). -/
abbrev Svh := Nat

/-- `syntax_pos::Span` (opaque). -/
abbrev Span := Nat

/-- `std::path::PathBuf`: a filesystem path, modelled as its string form. -/
abbrev PathBuf := String

/-- `session::search_paths::PathKind` (outside `src/`; opaque). -/
abbrev PathKind := Unit

/-- `ich::Fingerprint`: a 128-bit content hash (outside `src/`; opaque). -/
abbrev Fingerprint := Nat × Nat

/-- `LinkMeta` (cstore.rs lines 53-56). -/
structure LinkMeta where
  crate_hash : Svh
deriving DecidableEq, Repr

/-- `CrateSource` (cstore.rs lines 58-65): where a crate came from on the
local filesystem. The comment on the struct states that one of the three
options must be non-`None`. -/
structure CrateSource where
  dylib : Option (PathBuf × PathKind)
  rlib : Option (PathBuf × PathKind)
  rmeta : Option (PathBuf × PathKind)

/-- Modelled from the spec: the `CrateSource` validity contract ("Invariant:
at least one of the three must be present").  The code under `src/` only
documents this invariant (cstore.rs lines 58-59); it has no executable
check, so the predicate is written from the spec's words. -/
def CrateSource.valid (cs : CrateSource) : Bool :=
  cs.dylib.isSome || cs.rlib.isSome || cs.rmeta.isSome

/-- `DepKind` (cstore.rs lines 67-80), in source order; the Rust
`derive(Ord)` on a fieldless enum orders by declaration position. -/
inductive DepKind where
  | UnexportedMacrosOnly
  | MacrosOnly
  | Implicit
  | Explicit
deriving DecidableEq, Repr, Fintype

/-- Discriminant of a `DepKind` value: its position in the declaration,
which is what the derived `Ord` compares. -/
def DepKind.discriminant : DepKind → Nat
  | .UnexportedMacrosOnly => 0
  | .MacrosOnly => 1
  | .Implicit => 2
  | .Explicit => 3

/-- The derived `<=` on `DepKind` (discriminant order). -/
def DepKind.le (a b : DepKind) : Bool :=
  a.discriminant ≤ b.discriminant

/-- The derived `<` on `DepKind` (discriminant order). -/
def DepKind.lt (a b : DepKind) : Bool :=
  a.discriminant < b.discriminant

/-- `Ord::max` for `DepKind` under the derived order: returns the second
argument when the two compare equal, as Rust's `max` does. -/
def DepKind.max (a b : DepKind) : DepKind :=
  if DepKind.le a b then b else a

/-- `DepKind::macros_only` (cstore.rs lines 82-89). -/
def DepKind.macros_only : DepKind → Bool
  | .UnexportedMacrosOnly | .MacrosOnly => true
  | .Implicit | .Explicit => false

/-- `LibSource` (cstore.rs lines 91-96). -/
inductive LibSource where
  | Some (p : PathBuf)
  | MetadataOnly
  | None
deriving DecidableEq, Repr

/-- `LibSource::is_some` (cstore.rs lines 99-105). -/
def LibSource.is_some : LibSource → Bool
  | .Some _ => true
  | _ => false

/-- `LibSource::option` (cstore.rs lines 107-112). -/
def LibSource.option : LibSource → Option PathBuf
  | .Some p => some p
  | .MetadataOnly | .None => none

/-- `LinkagePreference` (cstore.rs lines 115-119). -/
inductive LinkagePreference where
  | RequireDynamic
  | RequireStatic
deriving DecidableEq, Repr

/-- `NativeLibraryKind` (cstore.rs lines 121-127). -/
inductive NativeLibraryKind where
  | NativeStatic
  | NativeStaticNobundle
  | NativeFramework
  | NativeUnknown
deriving DecidableEq, Repr

/-- `ast::MetaItem` (outside `src/`; opaque). -/
abbrev MetaItem := Unit

/-- `NativeLibrary` (cstore.rs lines 129-135). -/
structure NativeLibrary where
  kind : NativeLibraryKind
  name : SymbolStr
  cfg : Option MetaItem
  foreign_items : List DefIndex

/-- `ExternCrate` (cstore.rs lines 142-161). -/
structure ExternCrate where
  def_id : DefId
  span : Span
  direct : Bool
  path_len : Nat
deriving DecidableEq, Repr

/-- `EncodedMetadataHash` (cstore.rs lines 180-184). -/
structure EncodedMetadataHash where
  def_index : DefIndex
  hash : Fingerprint
deriving DecidableEq, Repr

/-- `EncodedMetadataHashes` (cstore.rs lines 189-193). -/
structure EncodedMetadataHashes where
  hashes : List EncodedMetadataHash
deriving DecidableEq, Repr

/-- `EncodedMetadataHashes::new` (cstore.rs lines 195-201). -/
def EncodedMetadataHashes.new : EncodedMetadataHashes :=
  { hashes := [] }

/-- `EncodedMetadata` (cstore.rs lines 163-166); bytes are modelled as
natural numbers below 256. -/
structure EncodedMetadata where
  raw_data : List Nat
  hashes : EncodedMetadataHashes
deriving DecidableEq, Repr

/-- `EncodedMetadata::new` (cstore.rs lines 168-175). -/
def EncodedMetadata.new : EncodedMetadata :=
  { raw_data := [], hashes := EncodedMetadataHashes.new }

/-- Result of calling a crate-store query: `Except.ok` a returned value, or
`Except.error msg` for the fatal internal `bug!(msg)` failure, which never
returns in the source. -/
abbrev StoreResult (α : Type) := Except String α

/-- `bug!(msg)`: the compiler's fatal internal-error macro invocation,
modelled as the error branch of `StoreResult`. -/
def bug {α : Type} (msg : String) : StoreResult α :=
  Except.error msg

/-- `ty::Visibility` (outside `src/`; opaque). -/
abbrev Visibility := Unit

/-- `ty::Generics` (outside `src/`; opaque). -/
abbrev Generics := Unit

/-- `ty::AssociatedItem` (outside `src/`; opaque). -/
abbrev AssociatedItem := Unit

/-- `hir::Defaultness` (outside `src/`; opaque). -/
abbrev Defaultness := Unit

/-- `rustc_back::PanicStrategy` (outside `src/`; opaque). -/
abbrev PanicStrategy := Unit

/-- `lang_items::LangItem` (outside `src/`; opaque). -/
abbrev LangItem := Unit

/-- `hir::map::definitions::DefKey` (outside `src/`; opaque). -/
abbrev DefKey := Unit

/-- `hir_map::DefPath` (outside `src/`; opaque). -/
abbrev DefPath := Unit

/-- `hir_map::DefPathHash` (outside `src/`; opaque). -/
abbrev DefPathHash := Unit

/-- `DefPathTable` (outside `src/`; opaque). -/
abbrev DefPathTable := Unit

/-- `def::Export` (outside `src/`; opaque). -/
abbrev Export := Unit

/-- `hir::Body` (outside `src/`; opaque). -/
abbrev HirBody := Unit

/-- `LoadedMacro` (cstore.rs lines 137-140), kept opaque: neither variant
payload lives under `src/`. -/
abbrev LoadedMacroInfo := Unit

/-- `Rc<Any>` (opaque). -/
abbrev RcAny := Unit

/-- The cached visible-parent map (opaque). -/
abbrev VisibleParentMap := Unit

/-- A reference to the metadata loader (opaque). -/
abbrev MetadataLoaderHandle := Unit

namespace DummyCrateStore

/-- cstore.rs lines 334-335. -/
def crate_data_as_rc_any (_krate : CrateNum) : StoreResult RcAny :=
  bug "crate_data_as_rc_any"

/-- cstore.rs line 337. -/
def visibility (_def : DefId) : StoreResult Visibility :=
  bug "visibility"

/-- cstore.rs lines 338-342. -/
def visible_parent_map : StoreResult VisibleParentMap :=
  bug "visible_parent_map"

/-- cstore.rs lines 343-344. -/
def item_generics_cloned (_def : DefId) : StoreResult Generics :=
  bug "item_generics_cloned"

/-- cstore.rs line 347. -/
def implementations_of_trait (_filter : Option DefId) : StoreResult (List DefId) :=
  Except.ok []

/-- cstore.rs line 350. -/
def impl_defaultness (_def : DefId) : StoreResult Defaultness :=
  bug "impl_defaultness"

/-- cstore.rs lines 353-354. -/
def associated_item_cloned (_def : DefId) : StoreResult AssociatedItem :=
  bug "associated_item_cloned"

/-- cstore.rs line 357. -/
def is_dllimport_foreign_item (_id : DefId) : StoreResult Bool :=
  Except.ok false

/-- cstore.rs line 358. -/
def is_statically_included_foreign_item (_def_id : DefId) : StoreResult Bool :=
  Except.ok false

/-- cstore.rs lines 361-362. -/
def lang_items (_cnum : CrateNum) : StoreResult (List (DefIndex × Nat)) :=
  bug "lang_items"

/-- cstore.rs lines 363-364. -/
def missing_lang_items (_cnum : CrateNum) : StoreResult (List LangItem) :=
  bug "missing_lang_items"

/-- cstore.rs line 365 (the bug message in the source is the stale name
"is_explicitly_linked"). -/
def dep_kind (_cnum : CrateNum) : StoreResult DepKind :=
  bug "is_explicitly_linked"

/-- cstore.rs line 366. -/
def export_macros (_cnum : CrateNum) : StoreResult Unit :=
  bug "export_macros"

/-- cstore.rs line 367. -/
def is_compiler_builtins (_cnum : CrateNum) : StoreResult Bool :=
  bug "is_compiler_builtins"

/-- cstore.rs line 368. -/
def is_profiler_runtime (_cnum : CrateNum) : StoreResult Bool :=
  bug "is_profiler_runtime"

/-- cstore.rs line 369. -/
def is_sanitizer_runtime (_cnum : CrateNum) : StoreResult Bool :=
  bug "is_sanitizer_runtime"

/-- cstore.rs lines 370-372. -/
def panic_strategy (_cnum : CrateNum) : StoreResult PanicStrategy :=
  bug "panic_strategy"

/-- cstore.rs line 373. -/
def crate_name (_cnum : CrateNum) : StoreResult SymbolStr :=
  bug "crate_name"

/-- cstore.rs lines 374-376. -/
def original_crate_name (_cnum : CrateNum) : StoreResult SymbolStr :=
  bug "original_crate_name"

/-- cstore.rs line 377. -/
def crate_hash (_cnum : CrateNum) : StoreResult Svh :=
  bug "crate_hash"

/-- cstore.rs lines 378-379. -/
def crate_disambiguator (_cnum : CrateNum) : StoreResult SymbolStr :=
  bug "crate_disambiguator"

/-- cstore.rs lines 380-381. -/
def plugin_registrar_fn (_cnum : CrateNum) : StoreResult (Option DefId) :=
  bug "plugin_registrar_fn"

/-- cstore.rs lines 382-383. -/
def derive_registrar_fn (_cnum : CrateNum) : StoreResult (Option DefId) :=
  bug "derive_registrar_fn"

/-- cstore.rs lines 384-385. -/
def native_libraries (_cnum : CrateNum) : StoreResult (List NativeLibrary) :=
  bug "native_libraries"

/-- cstore.rs line 386. -/
def exported_symbols (_cnum : CrateNum) : StoreResult (List DefId) :=
  bug "exported_symbols"

/-- cstore.rs line 387. -/
def is_no_builtins (_cnum : CrateNum) : StoreResult Bool :=
  bug "is_no_builtins"

/-- cstore.rs line 390. -/
def def_key (_def : DefId) : StoreResult DefKey :=
  bug "def_key"

/-- cstore.rs lines 391-393 (the bug message in the source is the stale
name "relative_def_path"). -/
def def_path (_def : DefId) : StoreResult DefPath :=
  bug "relative_def_path"

/-- cstore.rs lines 394-396. -/
def def_path_hash (_def : DefId) : StoreResult DefPathHash :=
  bug "def_path_hash"

/-- cstore.rs lines 397-399. -/
def def_path_table (_cnum : CrateNum) : StoreResult DefPathTable :=
  bug "def_path_table"

/-- cstore.rs line 400. -/
def struct_field_names (_def : DefId) : StoreResult (List SymbolStr) :=
  bug "struct_field_names"

/-- cstore.rs lines 401-403. -/
def item_children (_did : DefId) : StoreResult (List Export) :=
  bug "item_children"

/-- cstore.rs line 404 (`fn load_macro`). -/
def load_macro_query (_did : DefId) : StoreResult LoadedMacroInfo :=
  bug "load_macro"

/-- cstore.rs lines 407-410. -/
def item_body (_def : DefId) : StoreResult HirBody :=
  bug "item_body"

/-- cstore.rs line 414. -/
def crates : StoreResult (List CrateNum) :=
  Except.ok []

/-- cstore.rs line 415. -/
def used_libraries : StoreResult (List NativeLibrary) :=
  Except.ok []

/-- cstore.rs line 416. -/
def used_link_args : StoreResult (List String) :=
  Except.ok []

/-- cstore.rs lines 419-420. -/
def used_crates (_prefer : LinkagePreference) : StoreResult (List (CrateNum × LibSource)) :=
  Except.ok []

/-- cstore.rs line 421. -/
def used_crate_source (_cnum : CrateNum) : StoreResult CrateSource :=
  bug "used_crate_source"

/-- cstore.rs line 422. -/
def extern_mod_stmt_cnum (_emod_id : NodeId) : StoreResult (Option CrateNum) :=
  Except.ok none

/-- cstore.rs lines 423-429. -/
def encode_metadata : StoreResult EncodedMetadata :=
  bug "encode_metadata"

/-- cstore.rs line 430. -/
def metadata_encoding_version : StoreResult (List Nat) :=
  bug "metadata_encoding_version"

/-- cstore.rs line 433. -/
def metadata_loader : StoreResult MetadataLoaderHandle :=
  bug "metadata_loader"

end DummyCrateStore

/-- The message emitted for an empty crate name (cstore.rs line 314). -/
def empty_name_msg : String :=
  "crate name must not be empty"

/-- The message emitted for an invalid character, from
`format!("invalid character \x60{}\x60 in crate name: \x60{}\x60", c, s)`
(cstore.rs line 319). -/
def invalid_char_msg (c : Char) (s : String) : String :=
  "invalid character `" ++ c.toString ++ "` in crate name: `" ++ s ++ "`"

/-- State threaded through `validate_crate_name`: either still running, with
the diagnostics recorded in the session so far and the closure's
`err_count`, or terminated by a `bug!` panic with its message. -/
inductive VState where
  | running (emitted : List String) (err_count : Nat)
  | panicked (msg : String)
deriving DecidableEq, Repr

/-- The `say` closure (cstore.rs lines 305-312). `sess` records whether a
diagnostic session is attached (`sess.is_some()` in the source).  With a
session, `sess.span_err(sp, s)` or `sess.err(s)` records the diagnostic
(which of the two runs depends only on whether a span was supplied; both
record one diagnostic) and `err_count` is incremented; with no session,
`bug!("{}", s)` panics and nothing after it runs. -/
def say (sess : Bool) (st : VState) (msg : String) : VState :=
  match st with
  | .panicked m => .panicked m
  | .running emitted n =>
    if sess then .running (emitted ++ [msg]) (n + 1) else .panicked msg

/-- One iteration of the character loop (cstore.rs lines 316-320). -/
def check_char (is_alphanumeric : Char → Bool) (sess : Bool) (s : String)
    (st : VState) (c : Char) : VState :=
  if is_alphanumeric c then st
  else if c = '_' then st
  else say sess st (invalid_char_msg c s)

/-- The body of `validate_crate_name` up to the final abort check
(cstore.rs lines 303-321): the emptiness check followed by the character
loop.  `is_alphanumeric` abstracts the Rust standard library's
`char::is_alphanumeric` (Unicode alphabetic-or-numeric; not part of this
repository), which the source calls on each character. -/
def validate_steps (is_alphanumeric : Char → Bool) (sess : Bool) (s : String) : VState :=
  let st0 := VState.running [] 0
  let st1 := if s.isEmpty then say sess st0 empty_name_msg else st0
  s.toList.foldl (check_char is_alphanumeric sess s) st1

/-- How a run of `validate_crate_name` ends: normal return, abort via
`abort_if_errors` after the batch of diagnostics, or a `bug!` panic. -/
inductive VOutcome where
  | ok
  | aborted
  | fatal (msg : String)
deriving DecidableEq, Repr

/-- `validate_crate_name` (cstore.rs lines 302-326): runs the checks, then
aborts iff `err_count > 0` (cstore.rs lines 323-325).  Returns the
diagnostics recorded in the session, in emission order, together with the
outcome. -/
def validate_crate_name (is_alphanumeric : Char → Bool) (sess : Bool) (s : String) :
    List String × VOutcome :=
  match validate_steps is_alphanumeric sess s with
  | .panicked m => ([], .fatal m)
  | .running emitted n => (emitted, if n > 0 then .aborted else .ok)

/-- A character is invalid in a crate name iff it is neither accepted by
`is_alphanumeric` nor an underscore. -/
def is_invalid_char (is_alphanumeric : Char → Bool) (c : Char) : Bool :=
  !(is_alphanumeric c) && !(c == '_')

/-- The full batch of violations `validate_crate_name` finds in `s`: the
emptiness message when `s` is empty, then one message per invalid
character, in string order. -/
def crate_name_violations (is_alphanumeric : Char → Bool) (s : String) : List String :=
  (if s.isEmpty then [empty_name_msg] else []) ++
    (s.toList.filter (is_invalid_char is_alphanumeric)).map (fun c => invalid_char_msg c s)

/-- `NodeData` (mir_stats.rs lines 30-33). -/
structure NodeData where
  count : Nat
  size : Nat
deriving DecidableEq, Repr

/-- The `data` field of `StatCollector` (mir_stats.rs line 37): a hash map
from labels to `NodeData`, modelled as an association list with distinct
keys (iteration order of the source's hash map is unspecified; the printer
sorts before emitting). -/
abbrev StatData := List (String × NodeData)

/-- `StatCollector::record_with_size` (mir_stats.rs lines 57-65): find or
insert the entry for `label` starting at `{count: 0, size: 0}`, then
increment its count and overwrite its size with `node_size`. -/
def record_with_size : StatData → String → Nat → StatData
  | [], label, node_size => [(label, ⟨0 + 1, node_size⟩)]
  | (l, d) :: rest, label, node_size =>
    if l = label then (l, ⟨d.count + 1, node_size⟩) :: rest
    else (l, d) :: record_with_size rest label node_size

/-- Repeatedly record nodes under one label, in order of their sizes in
`szs` (each call to `record` passes the node's size). -/
def record_many (data : StatData) (label : String) (szs : List Nat) : StatData :=
  szs.foldl (fun d sz => record_with_size d label sz) data

/-- Hash-map lookup on the association-list model of `StatCollector.data`. -/
def stat_lookup : StatData → String → Option NodeData
  | [], _ => none
  | (l, d) :: rest, label => if l = label then some d else stat_lookup rest label

/-- The count stored for `label`, or `0` when absent (the `or_insert`
starting point of `record_with_size`). -/
def lookup_count (data : StatData) (label : String) : Nat :=
  match stat_lookup data label with
  | some d => d.count
  | none => 0

/-- Rust's `{:<w}` format padding: left-align in a field of width `w`. -/
def pad_right_to (s : String) (w : Nat) : String :=
  s ++ String.mk (List.replicate (w - s.length) ' ')

/-- Rust's `{:>w}` format padding: right-align in a field of width `w`. -/
def pad_left_to (s : String) (w : Nat) : String :=
  String.mk (List.replicate (w - s.length) ' ') ++ s

/-- The header row of the statistics table (mir_stats.rs lines 78-79). -/
def stats_header_row : String :=
  pad_right_to "Name" 32 ++ pad_left_to "Accumulated Size" 18 ++
    pad_left_to "Count" 14 ++ pad_left_to "Item Size" 14

/-- The separator rule of the statistics table (mir_stats.rs lines 80 and
89): 78 dashes. -/
def stats_separator : String :=
  String.mk (List.replicate 78 '-')

/-- One data row of the statistics table (mir_stats.rs lines 83-87).
`fmt` abstracts `to_readable_str` (from `rustc::util::common`, not part of
this repository). -/
def stats_row (fmt : Nat → String) (e : String × NodeData) : String :=
  pad_right_to e.1 32 ++ pad_left_to (fmt (e.2.count * e.2.size)) 18 ++
    pad_left_to (fmt e.2.count) 14 ++ pad_left_to (fmt e.2.size) 14

/-- The sort key comparison of `stats.sort_by_key(|&(_, ref d)| d.count * d.size)`
(mir_stats.rs line 74). -/
def acc_size_le (a b : String × NodeData) : Bool :=
  a.2.count * a.2.size ≤ b.2.count * b.2.size

/-- `StatCollector::print` (mir_stats.rs lines 71-90), as the list of lines
it writes to standard output.  `println!("\n{}\n", title)` contributes an
empty line, the title, and another empty line; Rust's `sort_by_key` is a
stable ascending sort, modelled by `List.mergeSort`. -/
def StatCollector.print (fmt : Nat → String) (title : String) (data : StatData) :
    List String :=
  let stats := data.mergeSort acc_size_le
  ["", title, ""] ++ [stats_header_row, stats_separator] ++
    stats.map (stats_row fmt) ++ [stats_separator]

/-! ### Helper lemmas about the validator's character loop -/

/-- Once `say` has panicked (no session attached), the rest of the
character loop does nothing. -/
theorem foldl_check_panicked (A : Char → Bool) (sess : Bool) (s m : String) :
    ∀ cs : List Char,
      cs.foldl (check_char A sess s) (VState.panicked m) = VState.panicked m := by
  intro cs
  induction cs with
  | nil => rfl
  | cons c cs ih =>
    have h : check_char A sess s (VState.panicked m) c = VState.panicked m := by
      simp [check_char, say]
    simp [List.foldl_cons, h, ih]

/-- With a session attached, running the character loop appends one message
per invalid character and adds the number of invalid characters to the
error count. -/
theorem foldl_check_true (A : Char → Bool) (s : String) :
    ∀ (cs : List Char) (em : List String) (n : Nat),
      cs.foldl (check_char A true s) (VState.running em n) =
        VState.running
          (em ++ (cs.filter (is_invalid_char A)).map (fun c => invalid_char_msg c s))
          (n + cs.countP (is_invalid_char A)) := by
  intro cs
  induction cs with
  | nil => intro em n; simp
  | cons c cs ih =>
    intro em n
    by_cases h1 : A c = true
    · have hbad : is_invalid_char A c = false := by simp [is_invalid_char, h1]
      have hstep : check_char A true s (VState.running em n) c = VState.running em n := by
        simp [check_char, h1]
      rw [List.foldl_cons, hstep, ih]
      simp [List.filter_cons, List.countP_cons, hbad]
    · by_cases h2 : c = '_'
      · have hbad : is_invalid_char A c = false := by simp [is_invalid_char, h2]
        have hstep : check_char A true s (VState.running em n) c = VState.running em n := by
          simp [check_char, h2]
        rw [List.foldl_cons, hstep, ih]
        simp [List.filter_cons, List.countP_cons, hbad]
      · have hbad : is_invalid_char A c = true := by
          simp [is_invalid_char, h1, h2]
        have hstep : check_char A true s (VState.running em n) c =
            VState.running (em ++ [invalid_char_msg c s]) (n + 1) := by
          simp [check_char, h1, h2, say]
        rw [List.foldl_cons, hstep, ih]
        simp [List.filter_cons, List.countP_cons, hbad]
        omega

/-- With a session attached and no invalid character, a single valid
character leaves the loop state unchanged. -/
theorem check_char_valid (A : Char → Bool) (s : String) (st : VState) (c : Char)
    (hb : is_invalid_char A c = false) :
    ∀ sess, check_char A sess s st c = st := by
  intro sess
  by_cases h1 : A c = true
  · simp [check_char, h1]
  · have h2 : c = '_' := by
      by_contra h2
      have : is_invalid_char A c = true := by simp [is_invalid_char, h1, h2]
      rw [this] at hb
      cases hb
    simp [check_char, h2]

/-- With no session attached, a loop over only valid characters leaves the
state unchanged. -/
theorem foldl_check_false_clean (A : Char → Bool) (s : String) :
    ∀ (cs : List Char) (st : VState),
      cs.filter (is_invalid_char A) = [] →
      cs.foldl (check_char A false s) st = st := by
  intro cs
  induction cs with
  | nil => intro st _; rfl
  | cons c cs ih =>
    intro st hf
    rw [List.filter_cons] at hf
    by_cases hb : is_invalid_char A c = true
    · rw [if_pos hb] at hf
      exact absurd hf (List.cons_ne_nil _ _)
    · have hb' : is_invalid_char A c = false := by simpa using hb
      rw [if_neg (by simp [hb'])] at hf
      rw [List.foldl_cons, check_char_valid A s st c hb']
      exact ih st hf

/-- With no session attached, the loop panics at the first invalid
character, with that character's message. -/
theorem foldl_check_false_bad (A : Char → Bool) (s : String) :
    ∀ (cs : List Char) (em : List String) (n : Nat) (c0 : Char) (rest : List Char),
      cs.filter (is_invalid_char A) = c0 :: rest →
      cs.foldl (check_char A false s) (VState.running em n) =
        VState.panicked (invalid_char_msg c0 s) := by
  intro cs
  induction cs with
  | nil => intro em n c0 rest h; exact absurd h (by simp)
  | cons c cs ih =>
    intro em n c0 rest h
    rw [List.filter_cons] at h
    by_cases hb : is_invalid_char A c = true
    · rw [if_pos hb] at h
      have hc : c = c0 := (List.cons_eq_cons.mp h).1
      have h1 : A c = false := by
        have := hb
        simp [is_invalid_char] at this
        exact this.1
      have h2 : ¬(c = '_') := by
        have := hb
        simp [is_invalid_char] at this
        exact this.2
      have hstep : check_char A false s (VState.running em n) c =
          VState.panicked (invalid_char_msg c s) := by
        simp [check_char, h1, h2, say]
      rw [List.foldl_cons, hstep, foldl_check_panicked, hc]
    · have hb' : is_invalid_char A c = false := by simpa using hb
      rw [if_neg (by simp [hb'])] at h
      rw [List.foldl_cons, check_char_valid A s _ c hb']
      exact ih em n c0 rest h

/-- With a session attached, `validate_crate_name` records the full batch
of violations and aborts afterwards iff the batch is non-empty. -/
theorem validate_true_eq (A : Char → Bool) (s : String) :
    validate_crate_name A true s =
      (crate_name_violations A s,
        if crate_name_violations A s = [] then VOutcome.ok else VOutcome.aborted) := by
  by_cases he : s.isEmpty = true
  · have hs : s = "" := (String.isEmpty_iff s).mp he
    subst hs
    rfl
  · have he' : s.isEmpty = false := by simpa using he
    have hsteps : validate_steps A true s =
        VState.running
          ((s.toList.filter (is_invalid_char A)).map (fun c => invalid_char_msg c s))
          (s.toList.countP (is_invalid_char A)) := by
      unfold validate_steps
      simp only [he', Bool.false_eq_true, if_false]
      simpa using foldl_check_true A s s.toList [] 0
    have hviol : crate_name_violations A s =
        (s.toList.filter (is_invalid_char A)).map (fun c => invalid_char_msg c s) := by
      unfold crate_name_violations
      simp only [he', Bool.false_eq_true, if_false, List.nil_append]
    unfold validate_crate_name
    rw [hsteps, hviol]
    dsimp only
    by_cases hf : s.toList.filter (is_invalid_char A) = []
    · rw [List.countP_eq_length_filter, hf]
      simp
    · have hpos : s.toList.countP (is_invalid_char A) > 0 := by
        rw [List.countP_eq_length_filter]
        exact List.length_pos.mpr hf
      have hmne : ¬((s.toList.filter (is_invalid_char A)).map
          (fun c => invalid_char_msg c s)) = [] := by
        simpa using hf
      rw [if_pos hpos, if_neg hmne]

/-- With no session attached, any violation makes `validate_crate_name`
panic via `bug!` at the first violation, recording nothing. -/
theorem validate_false_eq (A : Char → Bool) (s : String)
    (h : crate_name_violations A s ≠ []) :
    validate_crate_name A false s =
      ([], VOutcome.fatal ((crate_name_violations A s).headI)) := by
  by_cases he : s.isEmpty = true
  · have hs : s = "" := (String.isEmpty_iff s).mp he
    subst hs
    rfl
  · have he' : s.isEmpty = false := by simpa using he
    have hf : s.toList.filter (is_invalid_char A) ≠ [] := by
      intro hnil
      apply h
      unfold crate_name_violations
      rw [hnil]
      simp only [he', Bool.false_eq_true, if_false, List.map_nil, List.nil_append]
    obtain ⟨c0, rest, hcr⟩ := List.exists_cons_of_ne_nil hf
    have hsteps : validate_steps A false s = VState.panicked (invalid_char_msg c0 s) := by
      unfold validate_steps
      simp only [he', Bool.false_eq_true, if_false]
      exact foldl_check_false_bad A s s.toList [] 0 c0 rest hcr
    have hviol : crate_name_violations A s =
        invalid_char_msg c0 s :: rest.map (fun c => invalid_char_msg c s) := by
      unfold crate_name_violations
      rw [hcr]
      simp only [he', Bool.false_eq_true, if_false, List.map_cons, List.nil_append]
    unfold validate_crate_name
    rw [hsteps, hviol]
    rfl

/-! ### Helper lemmas about the statistics collector -/

/-- One `record_with_size` call bumps the count for its label by one and
stores the given size. -/
theorem record_with_size_lookup (data : StatData) (label : String) (sz : Nat) :
    stat_lookup (record_with_size data label sz) label =
      some ⟨lookup_count data label + 1, sz⟩ := by
  induction data with
  | nil => simp [record_with_size, stat_lookup, lookup_count]
  | cons e rest ih =>
    obtain ⟨l, d⟩ := e
    by_cases h : l = label
    · subst h
      simp [record_with_size, stat_lookup, lookup_count]
    · rw [show record_with_size ((l, d) :: rest) label sz =
          (l, d) :: record_with_size rest label sz by simp [record_with_size, h]]
      rw [show stat_lookup ((l, d) :: record_with_size rest label sz) label =
          stat_lookup (record_with_size rest label sz) label by simp [stat_lookup, h]]
      rw [show lookup_count ((l, d) :: rest) label = lookup_count rest label by
          simp [lookup_count, stat_lookup, h]]
      exact ih

/-- Recording a non-empty run of sizes under one label adds the run's
length to the count and leaves the last recorded size as the stored size. -/
theorem record_many_lookup (label : String) :
    ∀ (szs : List Nat) (data : StatData) (h : szs ≠ []),
      stat_lookup (record_many data label szs) label =
        some ⟨lookup_count data label + szs.length, szs.getLast h⟩ := by
  intro szs
  induction szs with
  | nil => intro data h; exact absurd rfl h
  | cons sz szs ih =>
    intro data h
    cases szs with
    | nil =>
      simpa [record_many, List.getLast] using record_with_size_lookup data label sz
    | cons sz2 szs2 =>
      have hne : (sz2 :: szs2) ≠ ([] : List Nat) := by simp
      have hstep : record_many data label (sz :: sz2 :: szs2) =
          record_many (record_with_size data label sz) label (sz2 :: szs2) := rfl
      rw [hstep, ih _ hne]
      have hc : lookup_count (record_with_size data label sz) label =
          lookup_count data label + 1 := by
        simp [lookup_count, record_with_size_lookup]
      rw [hc]
      have hlast : (sz :: sz2 :: szs2).getLast h = (sz2 :: szs2).getLast hne :=
        List.getLast_cons hne
      rw [hlast]
      have hlen : lookup_count data label + 1 + (sz2 :: szs2).length =
          lookup_count data label + (sz :: sz2 :: szs2).length := by
        simp [List.length_cons]
        omega
      rw [hlen]

/-! ### Claim theorems -/

/-- C1: for every pair of `DepKind` values, `DepKind.max` under the derived
order is an upper bound of both, is one of the two (so combining the kinds
observed via both edges yields the larger), and is symmetric in its
arguments; the derived order satisfies
`UnexportedMacrosOnly < MacrosOnly < Implicit < Explicit`; and
`macros_only` returns `true` exactly on `UnexportedMacrosOnly` and
`MacrosOnly`, the two lowest variants. -/
theorem depkind_max_and_macros_only :
    (∀ a b : DepKind,
      DepKind.le a (DepKind.max a b) = true ∧
      DepKind.le b (DepKind.max a b) = true ∧
      (DepKind.max a b = a ∨ DepKind.max a b = b) ∧
      DepKind.max a b = DepKind.max b a) ∧
    (DepKind.lt .UnexportedMacrosOnly .MacrosOnly = true ∧
      DepKind.lt .MacrosOnly .Implicit = true ∧
      DepKind.lt .Implicit .Explicit = true) ∧
    (∀ k : DepKind, k.macros_only = true ↔
      (k = .UnexportedMacrosOnly ∨ k = .MacrosOnly)) := by
  decide

/-- C5: on the dummy store (a session with zero extern dependencies),
`crates()` is empty, `implementations_of_trait(None)` is empty, and
`used_crates` under either linkage preference returns an empty result
normally rather than failing with `bug!`. -/
theorem dummy_empty_session_queries :
    DummyCrateStore.crates = Except.ok [] ∧
    DummyCrateStore.implementations_of_trait none = Except.ok [] ∧
    DummyCrateStore.used_crates LinkagePreference.RequireDynamic = Except.ok [] ∧
    DummyCrateStore.used_crates LinkagePreference.RequireStatic = Except.ok [] :=
  ⟨rfl, rfl, rfl, rfl⟩

/-- C6: every `CrateSource` satisfying the documented validity contract has
at least one of `dylib`, `rlib`, `rmeta` populated, and the value with all
three absent violates the contract. -/
theorem cratesource_at_least_one (cs : CrateSource) :
    (cs.valid = true →
      cs.dylib.isSome = true ∨ cs.rlib.isSome = true ∨ cs.rmeta.isSome = true) ∧
    CrateSource.valid ⟨none, none, none⟩ = false := by
  constructor
  · intro h
    simpa [CrateSource.valid, Bool.or_eq_true, or_assoc] using h
  · rfl

/-- C6 witness: a concrete `CrateSource` with only the `dylib` field set is
valid and indeed has a populated field. -/
theorem cratesource_at_least_one_witness :
    (CrateSource.mk (some ("libfoo.so", ())) none none).valid = true ∧
    ((CrateSource.mk (some ("libfoo.so", ())) none none).dylib.isSome = true ∨
      (CrateSource.mk (some ("libfoo.so", ())) none none).rlib.isSome = true ∨
      (CrateSource.mk (some ("libfoo.so", ())) none none).rmeta.isSome = true) :=
  ⟨rfl, (cratesource_at_least_one _).1 rfl⟩

/-- C8: the empty `EncodedMetadata` produced by `EncodedMetadata::new` has
a zero-length payload and an empty set of hash entries. -/
theorem encoded_metadata_new_empty :
    EncodedMetadata.new.raw_data = [] ∧
    EncodedMetadata.new.hashes.hashes = [] :=
  ⟨rfl, rfl⟩

/-- C3 counterexample: the claim stated that in `DummyCrateStore` every
boolean-returning query defaults to `false`, every optional-returning query
to `None`, and every collection query to an empty container.  At concrete
inputs the boolean query `is_compiler_builtins`, the optional query
`plugin_registrar_fn` and the collection query `lang_items` instead fail
with the internal `bug!` failure. -/
theorem dummy_defaults_counterexample :
    DummyCrateStore.is_compiler_builtins 0 ≠ Except.ok false ∧
    DummyCrateStore.plugin_registrar_fn 0 ≠ Except.ok none ∧
    DummyCrateStore.lang_items 0 ≠ Except.ok [] := by
  refine ⟨?_, ?_, ?_⟩ <;>
    simp [DummyCrateStore.is_compiler_builtins, DummyCrateStore.plugin_registrar_fn,
      DummyCrateStore.lang_items, bug]

/-- C3 (amended): in `DummyCrateStore`, the two foreign-item flag queries
return `false` and `extern_mod_stmt_cnum` returns `None`; the collection
queries `implementations_of_trait`, `crates`, `used_libraries`,
`used_link_args` and `used_crates` return empty containers; and every
other query — including the remaining boolean-returning, optional-returning
and collection-returning ones — fails with the internal `bug!` failure. -/
theorem dummy_store_behavior :
    (∀ d : DefId, DummyCrateStore.is_dllimport_foreign_item d = Except.ok false) ∧
    (∀ d : DefId, DummyCrateStore.is_statically_included_foreign_item d = Except.ok false) ∧
    (∀ i : NodeId, DummyCrateStore.extern_mod_stmt_cnum i = Except.ok none) ∧
    (∀ f : Option DefId, DummyCrateStore.implementations_of_trait f = Except.ok []) ∧
    DummyCrateStore.crates = Except.ok [] ∧
    DummyCrateStore.used_libraries = Except.ok [] ∧
    DummyCrateStore.used_link_args = Except.ok [] ∧
    (∀ p : LinkagePreference, DummyCrateStore.used_crates p = Except.ok []) ∧
    (∀ c : CrateNum, DummyCrateStore.crate_data_as_rc_any c =
      Except.error "crate_data_as_rc_any") ∧
    (∀ d : DefId, DummyCrateStore.visibility d = Except.error "visibility") ∧
    DummyCrateStore.visible_parent_map = Except.error "visible_parent_map" ∧
    (∀ d : DefId, DummyCrateStore.item_generics_cloned d =
      Except.error "item_generics_cloned") ∧
    (∀ d : DefId, DummyCrateStore.impl_defaultness d = Except.error "impl_defaultness") ∧
    (∀ d : DefId, DummyCrateStore.associated_item_cloned d =
      Except.error "associated_item_cloned") ∧
    (∀ c : CrateNum, DummyCrateStore.lang_items c = Except.error "lang_items") ∧
    (∀ c : CrateNum, DummyCrateStore.missing_lang_items c =
      Except.error "missing_lang_items") ∧
    (∀ c : CrateNum, DummyCrateStore.dep_kind c = Except.error "is_explicitly_linked") ∧
    (∀ c : CrateNum, DummyCrateStore.export_macros c = Except.error "export_macros") ∧
    (∀ c : CrateNum, DummyCrateStore.is_compiler_builtins c =
      Except.error "is_compiler_builtins") ∧
    (∀ c : CrateNum, DummyCrateStore.is_profiler_runtime c =
      Except.error "is_profiler_runtime") ∧
    (∀ c : CrateNum, DummyCrateStore.is_sanitizer_runtime c =
      Except.error "is_sanitizer_runtime") ∧
    (∀ c : CrateNum, DummyCrateStore.panic_strategy c = Except.error "panic_strategy") ∧
    (∀ c : CrateNum, DummyCrateStore.crate_name c = Except.error "crate_name") ∧
    (∀ c : CrateNum, DummyCrateStore.original_crate_name c =
      Except.error "original_crate_name") ∧
    (∀ c : CrateNum, DummyCrateStore.crate_hash c = Except.error "crate_hash") ∧
    (∀ c : CrateNum, DummyCrateStore.crate_disambiguator c =
      Except.error "crate_disambiguator") ∧
    (∀ c : CrateNum, DummyCrateStore.plugin_registrar_fn c =
      Except.error "plugin_registrar_fn") ∧
    (∀ c : CrateNum, DummyCrateStore.derive_registrar_fn c =
      Except.error "derive_registrar_fn") ∧
    (∀ c : CrateNum, DummyCrateStore.native_libraries c =
      Except.error "native_libraries") ∧
    (∀ c : CrateNum, DummyCrateStore.exported_symbols c =
      Except.error "exported_symbols") ∧
    (∀ c : CrateNum, DummyCrateStore.is_no_builtins c = Except.error "is_no_builtins") ∧
    (∀ d : DefId, DummyCrateStore.def_key d = Except.error "def_key") ∧
    (∀ d : DefId, DummyCrateStore.def_path d = Except.error "relative_def_path") ∧
    (∀ d : DefId, DummyCrateStore.def_path_hash d = Except.error "def_path_hash") ∧
    (∀ c : CrateNum, DummyCrateStore.def_path_table c = Except.error "def_path_table") ∧
    (∀ d : DefId, DummyCrateStore.struct_field_names d =
      Except.error "struct_field_names") ∧
    (∀ d : DefId, DummyCrateStore.item_children d = Except.error "item_children") ∧
    (∀ d : DefId, DummyCrateStore.load_macro_query d = Except.error "load_macro") ∧
    (∀ d : DefId, DummyCrateStore.item_body d = Except.error "item_body") ∧
    (∀ c : CrateNum, DummyCrateStore.used_crate_source c =
      Except.error "used_crate_source") ∧
    DummyCrateStore.encode_metadata = Except.error "encode_metadata" ∧
    DummyCrateStore.metadata_encoding_version =
      Except.error "metadata_encoding_version" ∧
    DummyCrateStore.metadata_loader = Except.error "metadata_loader" := by
  exact ⟨fun _ => rfl, fun _ => rfl, fun _ => rfl, fun _ => rfl, rfl, rfl, rfl,
    fun _ => rfl, fun _ => rfl, fun _ => rfl, rfl, fun _ => rfl, fun _ => rfl,
    fun _ => rfl, fun _ => rfl, fun _ => rfl, fun _ => rfl, fun _ => rfl,
    fun _ => rfl, fun _ => rfl, fun _ => rfl, fun _ => rfl, fun _ => rfl,
    fun _ => rfl, fun _ => rfl, fun _ => rfl, fun _ => rfl, fun _ => rfl,
    fun _ => rfl, fun _ => rfl, fun _ => rfl, fun _ => rfl, fun _ => rfl,
    fun _ => rfl, fun _ => rfl, fun _ => rfl, fun _ => rfl, fun _ => rfl,
    fun _ => rfl, fun _ => rfl, rfl, rfl, rfl⟩

/-- C2: with a diagnostic session attached, `validate_crate_name` records
exactly one error on the empty string, exactly `k` errors on a non-empty
string with exactly `k` characters that are neither accepted by
`is_alphanumeric` nor an underscore, and zero errors (without aborting)
on a non-empty string of only accepted characters and underscores. -/
theorem validate_crate_name_error_count (A : Char → Bool) (s : String) :
    (s.isEmpty = true → (validate_crate_name A true s).1.length = 1) ∧
    (s.isEmpty = false →
      (validate_crate_name A true s).1.length = s.toList.countP (is_invalid_char A)) ∧
    (s.isEmpty = false → (∀ c ∈ s.toList, A c = true ∨ c = '_') →
      (validate_crate_name A true s).1.length = 0 ∧
      (validate_crate_name A true s).2 = VOutcome.ok) := by
  have hmain := validate_true_eq A s
  have hlen : (validate_crate_name A true s).1.length =
      (crate_name_violations A s).length := by rw [hmain]
  refine ⟨?_, ?_, ?_⟩
  · intro he
    have hs : s = "" := (String.isEmpty_iff s).mp he
    subst hs
    rfl
  · intro he
    rw [hlen]
    unfold crate_name_violations
    rw [he]
    simp [List.countP_eq_length_filter]
  · intro he hall
    have hfil : s.toList.filter (is_invalid_char A) = [] := by
      rw [List.filter_eq_nil_iff]
      intro c hc
      rcases hall c hc with h1 | h2
      · simp [is_invalid_char, h1]
      · simp [is_invalid_char, h2]
    constructor
    · rw [hlen]
      unfold crate_name_violations
      rw [he, hfil]
      rfl
    · rw [hmain]
      have hv : crate_name_violations A s = [] := by
        unfold crate_name_violations
        rw [he, hfil]
        rfl
      rw [hv]
      rfl

/-- C2 witness: the theorem evaluated at `is_alphanumeric` instantiated
with the ASCII alphanumeric test and at concrete names: the empty string
gives one error, `"a-b!"` gives two, and `"ab_c9"` gives none. -/
theorem validate_crate_name_error_count_witness :
    (validate_crate_name Char.isAlphanum true "").1.length = 1 ∧
    (validate_crate_name Char.isAlphanum true "a-b!").1.length = 2 ∧
    (validate_crate_name Char.isAlphanum true "ab_c9").1.length = 0 ∧
    (validate_crate_name Char.isAlphanum true "ab_c9").2 = VOutcome.ok := by
  refine ⟨(validate_crate_name_error_count Char.isAlphanum "").1 rfl, ?_, ?_, ?_⟩
  · rw [(validate_crate_name_error_count Char.isAlphanum "a-b!").2.1 rfl]
    decide
  · exact ((validate_crate_name_error_count Char.isAlphanum "ab_c9").2.2 rfl
      (by decide)).1
  · exact ((validate_crate_name_error_count Char.isAlphanum "ab_c9").2.2 rfl
      (by decide)).2

/-- C4: with a diagnostic session attached, `validate_crate_name` emits the
whole batch of violations (the emptiness message plus one message per
offending character, in order, as separate diagnostics) and only then
aborts, and it aborts exactly when the batch is non-empty; with no session
attached, the first violation is an unconditional fatal internal error
(`bug!`) carrying that violation's message, with nothing recorded. -/
theorem validate_crate_name_batched_abort (A : Char → Bool) (s : String) :
    validate_crate_name A true s =
      (crate_name_violations A s,
        if crate_name_violations A s = [] then VOutcome.ok else VOutcome.aborted) ∧
    (crate_name_violations A s ≠ [] →
      validate_crate_name A false s =
        ([], VOutcome.fatal ((crate_name_violations A s).headI))) :=
  ⟨validate_true_eq A s, fun h => validate_false_eq A s h⟩

/-- C4 witness: on the concrete name `"a!"`, the session run emits the one
violation and aborts, and the session-less run is fatal at that
violation. -/
theorem validate_crate_name_batched_abort_witness :
    validate_crate_name Char.isAlphanum true "a!" =
      ([invalid_char_msg '!' "a!"], VOutcome.aborted) ∧
    validate_crate_name Char.isAlphanum false "a!" =
      ([], VOutcome.fatal (invalid_char_msg '!' "a!")) := by
  have h := validate_crate_name_batched_abort Char.isAlphanum "a!"
  have hv : crate_name_violations Char.isAlphanum "a!" = [invalid_char_msg '!' "a!"] := by
    decide
  constructor
  · rw [h.1, hv]
    rfl
  · rw [h.2 (by rw [hv]; simp), hv]
    rfl

/-- C10: `validate_crate_name` accepts every character its alphanumeric
predicate accepts — the source calls `char::is_alphanumeric` directly,
imposing no ASCII restriction — so every non-empty name all of whose
characters are accepted or underscores records zero errors. -/
theorem validate_crate_name_accepts_all_alphanumeric (A : Char → Bool) (s : String)
    (hne : s.isEmpty = false)
    (hall : ∀ c ∈ s.toList, A c = true ∨ c = '_') :
    (validate_crate_name A true s).1.length = 0 := by
  have hfil : s.toList.filter (is_invalid_char A) = [] := by
    rw [List.filter_eq_nil_iff]
    intro c hc
    rcases hall c hc with h1 | h2
    · simp [is_invalid_char, h1]
    · simp [is_invalid_char, h2]
  rw [validate_true_eq A s]
  unfold crate_name_violations
  rw [hne, hfil]
  rfl

/-- C10 witness: under a predicate that (like Rust's
`char::is_alphanumeric`) accepts the non-ASCII letter `é`, the name
`"abé"` records zero errors. -/
theorem validate_crate_name_accepts_all_alphanumeric_witness :
    (validate_crate_name (fun c => c.isAlphanum || c == 'é') true "abé").1.length = 0 := by
  apply validate_crate_name_accepts_all_alphanumeric
  · rfl
  · decide

/-- C7: `StatCollector::print` emits the two-blank-line title block, a
fixed four-column header row, one separator rule, then one four-column row
per recorded label sorted ascending by accumulated size
(`count * size`), then one final separator rule. -/
theorem statcollector_print_layout (fmt : Nat → String) (title : String) (data : StatData) :
    ∃ stats : StatData,
      stats.Perm data ∧
      List.Sorted (fun a b : String × NodeData =>
        a.2.count * a.2.size ≤ b.2.count * b.2.size) stats ∧
      StatCollector.print fmt title data =
        ["", title, ""] ++ [stats_header_row, stats_separator] ++
          stats.map (stats_row fmt) ++ [stats_separator] := by
  refine ⟨data.mergeSort acc_size_le, List.mergeSort_perm data acc_size_le, ?_, rfl⟩
  have h : List.Pairwise (fun a b => acc_size_le a b = true) (data.mergeSort acc_size_le) :=
    List.sorted_mergeSort
      (fun a b c h1 h2 => by
        simp only [acc_size_le, decide_eq_true_eq] at h1 h2 ⊢
        omega)
      (fun a b => by
        simp only [acc_size_le, Bool.or_eq_true, decide_eq_true_eq]
        omega)
      data
  have : ∀ a b : String × NodeData, acc_size_le a b = true ↔
      a.2.count * a.2.size ≤ b.2.count * b.2.size := by
    intro a b
    simp [acc_size_le]
  exact List.Pairwise.imp (fun hab => (this _ _).mp hab) h

/-- C9: `record_with_size` increments the entry's count by one but
overwrites its stored size with the latest node's size; consequently,
after recording a non-empty run of sizes under one label starting from an
empty collector, the printed accumulated size `count * size` equals the
number of recordings times the LAST recorded size. -/
theorem record_with_size_overwrites (label : String) :
    (∀ (data : StatData) (sz : Nat),
      stat_lookup (record_with_size data label sz) label =
        some ⟨lookup_count data label + 1, sz⟩) ∧
    (∀ (szs : List Nat) (h : szs ≠ []),
      ∃ d : NodeData,
        stat_lookup (record_many [] label szs) label = some d ∧
        d.count = szs.length ∧
        d.size = szs.getLast h ∧
        d.count * d.size = szs.length * szs.getLast h) := by
  constructor
  · intro data sz
    exact record_with_size_lookup data label sz
  · intro szs h
    refine ⟨⟨szs.length, szs.getLast h⟩, ?_, rfl, rfl, rfl⟩
    simpa [lookup_count, stat_lookup] using record_many_lookup label szs [] h

/-- C9 witness: recording sizes 1 then 5 under the label `"Statement"`
yields count 2 with stored size 5, so the accumulated size is 10 — the
count times the last size, not the sum `1 + 5 = 6`. -/
theorem record_with_size_overwrites_witness :
    ∃ d : NodeData,
      stat_lookup (record_many [] "Statement" [1, 5]) "Statement" = some d ∧
      d.count = 2 ∧ d.size = 5 ∧ d.count * d.size = 10 ∧ d.count * d.size ≠ 1 + 5 := by
  obtain ⟨d, h1, h2, h3, h4⟩ :=
    (record_with_size_overwrites "Statement").2 [1, 5] (by simp)
  refine ⟨d, h1, by simpa using h2, by simpa using h3, ?_, ?_⟩
  · rw [h2, h3]
    rfl
  · rw [h2, h3]
    decide
